import Mathlib

/-!
Verification of the authentication/authorization core of a Go REST service
(go-crud-api). The Go sources are shallowly embedded: time is modelled as
Unix seconds (`Int`), UUIDs as strings, the HMAC signature as an idealized
collision-free MAC (a string that records method, secret and payload), and
the persistence layer as an in-memory list of records queried with the same
predicates the SQL uses (`email = ?` is exact string equality on a varchar
column).
-/

namespace GoCrudApi

/-- UUIDs (github.com/google/uuid) are modelled as their string rendering;
`uuid.UUID.String()` is the identity here. -/
abbrev UUID := String

/-! ### String primitives

Go's `strings` package operations, restated structurally on the character
list underlying a Lean `String` so that they compute by kernel reduction.
Go strings in this codebase hold ASCII header/hash material, where these
agree with Go's definitions. -/

/-- ASCII lower-casing of one character (what `strings.ToLower` does on the
ASCII range). -/
def lowerChar (c : Char) : Char :=
  if 'A' ≤ c ∧ c ≤ 'Z' then Char.ofNat (c.toNat + 32) else c

/-- Model of `strings.ToLower` on ASCII strings. -/
def toLowerStr (s : String) : String :=
  ⟨s.data.map lowerChar⟩

/-- Split a character list around every occurrence of `sep`; the list of
fragments is never empty. -/
def splitOnChar (sep : Char) : List Char → List (List Char)
  | [] => [[]]
  | c :: cs =>
    let r := splitOnChar sep cs
    if c = sep then [] :: r
    else
      match r with
      | [] => [[c]]
      | h :: t => (c :: h) :: t

/-- Model of `strings.Split(s, sep)` for a one-character separator: split around
every occurrence, `[""]` on the empty string, no collapsing of adjacent
separators. -/
def splitStr (sep : Char) (s : String) : List String :=
  (splitOnChar sep s.data).map (fun l => ⟨l⟩)

/-- Split a character list at the first occurrence of `sep`, when any. -/
def breakAtChar (sep : Char) : List Char → Option (List Char × List Char)
  | [] => none
  | c :: cs =>
    if c = sep then some ([], cs)
    else
      match breakAtChar sep cs with
      | some (pre, post) => some (c :: pre, post)
      | none => none

namespace Jwt

/-- The signing methods of golang-jwt/jwt/v5 that appear in the header `alg`
field. `HS256/384/512` are the instances of `*jwt.SigningMethodHMAC`. -/
inductive SigningMethod where
  | HS256
  | HS384
  | HS512
  | RS256
  | ES256
  | EdDSA
  | noAlg
  deriving DecidableEq, Repr

/-- The keyfunc in `ValidateToken` checks `token.Method.(*jwt.SigningMethodHMAC)`:
the HMAC family, not just HS256. -/
def SigningMethod.isHMAC : SigningMethod → Bool
  | .HS256 => true
  | .HS384 => true
  | .HS512 => true
  | _ => false

/-- Name of the method as it appears in the `alg` header field. -/
def SigningMethod.algName : SigningMethod → String
  | .HS256 => "HS256"
  | .HS384 => "HS384"
  | .HS512 => "HS512"
  | .RS256 => "RS256"
  | .ES256 => "ES256"
  | .EdDSA => "EdDSA"
  | .noAlg => "none"

/-- The `jwt.RegisteredClaims` record restricted to the fields `generateToken` sets.
`jwt.NumericDate` values are Unix seconds. -/
structure RegisteredClaims where
  ExpiresAt : Int
  IssuedAt : Int
  NotBefore : Int
  Subject : String
  deriving DecidableEq, Repr

/-- The `Claims` struct of pkg/jwt/jwt.go: custom `user_id` and `role` fields plus
the embedded registered claims. -/
structure Claims where
  UserID : UUID
  Role : String
  Registered : RegisteredClaims
  deriving DecidableEq, Repr

/-- The serialized claim set over which the MAC is computed (stands for the
base64url-encoded JSON payload of the compact serialization). -/
def serializeClaims (c : Claims) : String :=
  c.UserID ++ ";" ++ c.Role ++ ";" ++ toString c.Registered.ExpiresAt ++ ";"
    ++ toString c.Registered.IssuedAt ++ ";" ++ toString c.Registered.NotBefore
    ++ ";" ++ c.Registered.Subject

/-- Idealized symmetric MAC: the signature determines (and is determined by)
the method, the secret and the signed payload. Collision-freeness of the
real HMAC is the standard assumption this models. -/
def hmacSign (m : SigningMethod) (secret payload : String) : String :=
  m.algName ++ "|" ++ secret ++ "|" ++ payload

/-- A parsed JWT: header (signing method), payload (claims) and signature. -/
structure Token where
  method : SigningMethod
  claims : Claims
  sig : String
  deriving DecidableEq, Repr

/-- Function `generateToken` of pkg/jwt/jwt.go: builds claims with
`ExpiresAt = now + ttl`, `IssuedAt = now`, `NotBefore = now`,
`Subject = userID.String()`, and signs with HS256 over `secret`. -/
def generateToken (now : Int) (userID : UUID) (userRole secret : String) (ttl : Int) : Token :=
  let claims : Claims :=
    { UserID := userID
      Role := userRole
      Registered :=
        { ExpiresAt := now + ttl
          IssuedAt := now
          NotBefore := now
          Subject := userID } }
  { method := .HS256
    claims := claims
    sig := hmacSign .HS256 secret (serializeClaims claims) }

/-- Function `GenerateTokens` of pkg/jwt/jwt.go: the access and refresh tokens are two
calls to `generateToken` with the same userID, role and secret, differing only
in the TTL. (Signing cannot fail in the model, as HMAC signing in Go only
fails on a non-byte-slice key.) -/
def GenerateTokens (now : Int) (userID : UUID) (userRole secret : String)
    (accessTokenTTL refreshTokenTTL : Int) : Token × Token :=
  (generateToken now userID userRole secret accessTokenTTL,
   generateToken now userID userRole secret refreshTokenTTL)

/-- Failure cases of `jwt.ParseWithClaims` as exercised by `ValidateToken`:
the keyfunc rejecting the algorithm, signature mismatch, and the jwt/v5
claim validator (not-before and expiry, zero leeway). The Go function wraps
them all into one opaque error for callers. -/
inductive TokenError where
  | unexpectedSigningMethod
  | signatureInvalid
  | notYetValid
  | expired
  deriving DecidableEq, Repr

/-- Function `ValidateToken` of pkg/jwt/jwt.go via `jwt.ParseWithClaims`:
1. the keyfunc rejects any method that is not `*jwt.SigningMethodHMAC`;
2. the signature is recomputed with `secret` and compared;
3. the jwt/v5 validator (zero leeway) requires `nbf ≤ now` and `now < exp`.
On success the parsed claims are returned. -/
def ValidateToken (now : Int) (t : Token) (secret : String) : Except TokenError Claims :=
  if !t.method.isHMAC then
    .error .unexpectedSigningMethod
  else if t.sig ≠ hmacSign t.method secret (serializeClaims t.claims) then
    .error .signatureInvalid
  else if now < t.claims.Registered.NotBefore then
    .error .notYetValid
  else if t.claims.Registered.ExpiresAt ≤ now then
    .error .expired
  else
    .ok t.claims

end Jwt

namespace Password

/-- Modelled from the spec: the implementation of pkg/password
(`HashPassword`) is not present under src (only its tests are). Spec 4.1:
`hash(plaintext)` computes a salted one-way hash with a fresh random salt
per call, the salt embedded in the hash string. The salt is made an explicit
argument (the Go side draws it at random), and the one-way digest is
idealized as perfectly collision-free. -/
def HashPassword (salt : Nat) (plaintext : String) : String :=
  toString salt ++ "$" ++ plaintext

/-- Modelled from the spec: the implementation of pkg/password
(`CheckPasswordHash`) is not present under src (only its tests are).
Spec 4.1: `verify(plaintext, hash_string)` recomputes the hash using the
salt embedded in `hash_string` and compares; it returns false (never
throws) for malformed hash strings (no salt prefix) or for an empty
plaintext. With the idealized digest, comparing the recomputation to the
stored hash amounts to comparing the digest part to the plaintext. -/
def CheckPasswordHash (plaintext h : String) : Bool :=
  if plaintext = "" then false
  else
    match breakAtChar '$' h.data with
    | some (saltChars, digest) => saltChars.all Char.isDigit && digest == plaintext.data
    | none => false

end Password

namespace Users

/-- The user model of internal/domain/users (repository.go): note the gorm
tags (`email` is `varchar(255) unique`) and the json tags (`PasswordHash`
is tagged `json:"-"`, all other fields have a json name). Timestamps are
Unix seconds. -/
structure User where
  ID : UUID
  Name : String
  Email : String
  PasswordHash : String
  Role : String
  CreatedAt : Int
  UpdatedAt : Int
  deriving DecidableEq, Repr

/-- The JSON projection of `User` induced by its struct tags: every field is
emitted under its json name except `PasswordHash`, whose tag `json:"-"`
excludes it from marshalling. -/
def User.toJson (u : User) : List (String × String) :=
  [("id", u.ID), ("name", u.Name), ("email", u.Email), ("role", u.Role),
   ("created_at", toString u.CreatedAt), ("updated_at", toString u.UpdatedAt)]

/-- Errors surfaced by the gorm-backed `UserRepository`
(internal/repository, src/unnamed/part_000). `recordNotFound` is
`gorm.ErrRecordNotFound`; `uniqueViolation` is the unique-constraint error
on the `email` column. -/
inductive RepoError where
  | recordNotFound
  | uniqueViolation
  deriving DecidableEq, Repr

/-- The persistent store: the `users` table as a list of rows. -/
abbrev UserStore := List User

/-- Method `gormUserRepository.FindByEmail`: `WHERE email = ?` then `First`.
SQL `=` on a varchar column under default collation is exact (byte-wise,
hence case-sensitive) string equality; `First` returns the first matching
row or `gorm.ErrRecordNotFound`. -/
def FindByEmail (store : UserStore) (email : String) : Except RepoError User :=
  match store.find? (fun u => u.Email == email) with
  | some u => .ok u
  | none => .error .recordNotFound

/-- Method `gormUserRepository.Create`: inserts the row; the DB assigns the
`uuid_generate_v4()` primary key (passed here as `newID`) and rejects a
duplicate email via the unique constraint. -/
def Create (store : UserStore) (newID : UUID) (now : Int) (u : User) :
    Except RepoError (User × UserStore) :=
  if store.any (fun v => v.Email == u.Email) then
    .error .uniqueViolation
  else
    let row := { u with ID := newID, CreatedAt := now, UpdatedAt := now }
    .ok (row, store ++ [row])

/-- Method `gormUserRepository.List`: all rows. -/
def ListUsers (store : UserStore) : List User := store

/-- The relevant part of `config.Config`: the JWT secret and the two token
TTLs. The TTLs are stored as strings in Go and parsed with
`time.ParseDuration` at login; they are modelled already parsed, in
seconds. -/
structure Config where
  JWTSecret : String
  AccessTokenTTL : Int
  RefreshTokenTTL : Int
  deriving Repr

/-- Errors of `Service.Login` (service.go): a repository error is returned
unchanged (line 49), a failed password check yields
`errors.New("invalid email or password")` (line 53). These are distinct
error values at the service layer. -/
inductive LoginError where
  | repo (e : RepoError)
  | invalidEmailOrPassword
  deriving DecidableEq, Repr

/-- Method `Service.Register` of the users service (service.go lines 25-43): hash the password, build a
`User` with `Role := "user"` (all other unset Go fields zero-valued), and
persist via the repository. The fresh bcrypt salt and the DB-assigned id
are explicit arguments. -/
def ServiceRegister (store : UserStore) (salt : Nat) (newID : UUID) (now : Int)
    (name email pass : String) : Except RepoError (User × UserStore) :=
  let hashedPassword := Password.HashPassword salt pass
  let user : User :=
    { ID := ""
      Name := name
      Email := email
      PasswordHash := hashedPassword
      Role := "user"
      CreatedAt := 0
      UpdatedAt := 0 }
  Create store newID now user

/-- Method `Service.Login` of the users service (service.go lines 46-65): look up by email, check the
password hash, then issue the token pair with the identity's id and role. -/
def ServiceLogin (store : UserStore) (cfg : Config) (now : Int)
    (email pass : String) : Except LoginError (Jwt.Token × Jwt.Token) :=
  match FindByEmail store email with
  | .error e => .error (.repo e)
  | .ok user =>
    if !Password.CheckPasswordHash pass user.PasswordHash then
      .error .invalidEmailOrPassword
    else
      .ok (Jwt.GenerateTokens now user.ID user.Role cfg.JWTSecret
            cfg.AccessTokenTTL cfg.RefreshTokenTTL)

end Users

namespace Web

/-- The error payload written by `web.RespondWithError`: error code string,
message, and HTTP status. -/
structure ErrorResponse where
  code : String
  message : String
  status : Nat
  deriving DecidableEq, Repr

end Web

namespace Users

/-- The body of a successful login response (handler.go `LoginResponse`). -/
structure LoginResponse where
  AccessToken : Jwt.Token
  RefreshToken : Jwt.Token
  deriving DecidableEq, Repr

/-- Method `AuthHandler.Login` (handler.go lines 89-114), after the request body
has been decoded and validated: call `Service.Login`; ANY error from it is
answered with the single response
`("unauthorized", "Invalid email or password", 401)` (lines 101-106);
success returns the token pair with status 200. -/
def HandlerLogin (store : UserStore) (cfg : Config) (now : Int)
    (email pass : String) : Except Web.ErrorResponse LoginResponse :=
  match ServiceLogin store cfg now email pass with
  | .error _ =>
    .error { code := "unauthorized", message := "Invalid email or password", status := 401 }
  | .ok (accessToken, refreshToken) =>
    .ok { AccessToken := accessToken, RefreshToken := refreshToken }

end Users

namespace Middleware

/-- The request-scoped state an HTTP middleware sees: the raw Authorization
header (Go's `r.Header.Get` yields `""` when the header is absent) and the
context values bound under `ContextKeyUserID` / `ContextKeyRole`. A context
value is `none` when the key is absent or the type assertion fails. -/
structure Request where
  authorizationHeader : String
  ctxUserID : Option UUID
  ctxRole : Option String
  deriving DecidableEq, Repr

/-- Outcome of running a middleware on a request: either an error response
is written and the chain stops, or the (possibly augmented) request is
passed to the next handler. -/
inductive MwResult where
  | respond (e : Web.ErrorResponse)
  | next (r : Request)
  deriving DecidableEq, Repr

/-- Response of `AuthMiddleware` to a missing Authorization header. -/
def authHeaderRequiredResponse : Web.ErrorResponse :=
  { code := "unauthorized", message := "Authorization header required", status := 401 }

/-- Response of `AuthMiddleware` to a malformed Authorization header. -/
def invalidAuthFormatResponse : Web.ErrorResponse :=
  { code := "unauthorized", message := "Invalid authorization header format", status := 401 }

/-- Response of `AuthMiddleware` to a failed token validation. -/
def invalidTokenResponse : Web.ErrorResponse :=
  { code := "unauthorized", message := "Invalid or expired token", status := 401 }

/-- Response of `HasRoleMiddleware` to a request with no bound role. -/
def roleNotFoundResponse : Web.ErrorResponse :=
  { code := "forbidden", message := "Role not found in context", status := 403 }

/-- Response of `HasRoleMiddleware` to a bound role outside the permitted
set. -/
def insufficientPermissionsResponse : Web.ErrorResponse :=
  { code := "forbidden", message := "Insufficient permissions", status := 403 }

/-- Function `AuthMiddleware` (internal/http/middleware/auth.go lines 26-53).
The token-string validation step (`jwt.ValidateToken` on the compact
serialization) is abstracted as the parameter `validateTokenString`, since
this middleware only forwards the second header segment to it:
1. empty (absent) Authorization header → 401 "Authorization header required";
2. `strings.Split(header, " ")` must give exactly `[scheme, token]` with
   `strings.ToLower(scheme) = "bearer"` → otherwise 401;
3. token validation failure → 401; success binds userID and role
   into the context and calls the next handler. -/
def AuthMiddleware (validateTokenString : String → Except Jwt.TokenError Jwt.Claims)
    (req : Request) : MwResult :=
  if req.authorizationHeader == "" then
    .respond authHeaderRequiredResponse
  else if (splitStr ' ' req.authorizationHeader).length ≠ 2
      || toLowerStr ((splitStr ' ' req.authorizationHeader).headD "") ≠ "bearer" then
    .respond invalidAuthFormatResponse
  else
    match validateTokenString ((splitStr ' ' req.authorizationHeader).getD 1 "") with
    | .error _ => .respond invalidTokenResponse
    | .ok claims =>
      .next { req with ctxUserID := some claims.UserID, ctxRole := some claims.Role }

/-- Function `HasRoleMiddleware` (internal/http/middleware/auth.go lines 58-83):
a missing (or non-string) role context value → 403 "Role not found in
context"; a bound role not among `requiredRoles` → 403 "Insufficient
permissions"; otherwise the request is passed on unchanged. -/
def HasRoleMiddleware (requiredRoles : List String) (req : Request) : MwResult :=
  match req.ctxRole with
  | none => .respond roleNotFoundResponse
  | some userRole =>
    if requiredRoles.contains userRole then
      .next req
    else
      .respond insufficientPermissionsResponse

/-- The role gate `InitRouter` composes onto the `/v1/users` listing route
(internal/http/router.go lines 44-47): `HasRoleMiddleware("admin")`. -/
def listUsersRoleGate : Request → MwResult :=
  HasRoleMiddleware ["admin"]

end Middleware

namespace Products

/-- The product model of internal/domain/products (src/unnamed/part_001).
`Price` is a Go float64, `Stock` a Go int; timestamps are Unix seconds. -/
structure Product where
  ID : UUID
  Name : String
  Description : String
  Price : Float
  Stock : Int
  OwnerID : UUID
  CreatedAt : Int
  UpdatedAt : Int
  deriving Repr

/-- The products table as a list of rows. -/
abbrev ProductStore := List Product

/-- Method `gormProductRepository.FindByID`: `WHERE id = ?` then `First`. -/
def FindByID (store : ProductStore) (id : UUID) : Option Product :=
  store.find? (fun p => p.ID == id)

/-- Method `gormProductRepository.Update` is gorm `Save`: replaces the row with the
matching primary key. -/
def SaveProduct (store : ProductStore) (p : Product) : ProductStore :=
  store.map (fun q => if q.ID == p.ID then p else q)

/-- Method `Service.Update` of the products service (src/unnamed/part_002 lines
42-58): fetch the product by id; on success assign exactly the four fields
`Name`, `Description`, `Price`, `Stock` on the fetched record, store it via
the repository, and return it. `none` models the error path when the fetch
fails. -/
def ServiceUpdate (store : ProductStore) (id : UUID) (name description : String)
    (price : Float) (stock : Int) : Option (Product × ProductStore) :=
  match FindByID store id with
  | none => none
  | some product =>
    let product := { product with
      Name := name
      Description := description
      Price := price
      Stock := stock }
    some (product, SaveProduct store product)

end Products

/-! ## Theorems -/

open Jwt Users Middleware Products Web

/-- Decidable equality on `Except`, for evaluating the embedded operations
at concrete inputs. -/
instance {ε α : Type} [DecidableEq ε] [DecidableEq α] : DecidableEq (Except ε α) := fun
  | .error e, .error f => decidable_of_iff (e = f) (by simp)
  | .error _, .ok _ => isFalse (by simp)
  | .ok _, .error _ => isFalse (by simp)
  | .ok a, .ok b => decidable_of_iff (a = b) (by simp)

/-- The one response `AuthHandler.Login` writes for every failing login
(handler.go lines 101-106). -/
def invalidCredentialsResponse : Web.ErrorResponse :=
  { code := "unauthorized", message := "Invalid email or password", status := 401 }

/-- A registered identity used as a concrete fixture. -/
def annUser : Users.User :=
  { ID := "u1"
    Name := "Ann"
    Email := "ann@example.com"
    PasswordHash := Password.HashPassword 7 "password123"
    Role := "user"
    CreatedAt := 0
    UpdatedAt := 0 }

/-- A store holding just the fixture identity. -/
def annStore : Users.UserStore := [annUser]

/-- A concrete token configuration fixture. -/
def fixtureCfg : Users.Config :=
  { JWTSecret := "s", AccessTokenTTL := 900, RefreshTokenTTL := 604800 }

/-- C1: a login whose email is not in the store and a login whose password
check fails are answered by the handler with the one identical
`invalidCredentialsResponse` (code "unauthorized", generic message, 401), so
the caller cannot tell whether the email existed. -/
theorem login_no_account_enumeration (store : Users.UserStore) (cfg : Users.Config)
    (now : Int) (email pass : String) :
    (Users.FindByEmail store email = .error .recordNotFound →
      Users.HandlerLogin store cfg now email pass = .error invalidCredentialsResponse)
    ∧ (∀ u : Users.User, Users.FindByEmail store email = .ok u →
      Password.CheckPasswordHash pass u.PasswordHash = false →
      Users.HandlerLogin store cfg now email pass = .error invalidCredentialsResponse) := by
  constructor
  · intro h
    simp [Users.HandlerLogin, Users.ServiceLogin, h, invalidCredentialsResponse]
  · intro u hu hpw
    simp [Users.HandlerLogin, Users.ServiceLogin, hu, hpw, invalidCredentialsResponse]

/-- Witness for C1: an unknown email against an empty store, and the
fixture identity with a wrong password, both yield the same 401 response. -/
theorem login_no_account_enumeration_witness :
    (Users.HandlerLogin [] fixtureCfg 0 "ann@example.com" "password123"
        = .error invalidCredentialsResponse)
    ∧ (Users.HandlerLogin annStore fixtureCfg 0 "ann@example.com" "wrongpass"
        = .error invalidCredentialsResponse) :=
  ⟨(login_no_account_enumeration [] fixtureCfg 0 "ann@example.com" "password123").1 (by decide),
   (login_no_account_enumeration annStore fixtureCfg 0 "ann@example.com" "wrongpass").2
     annUser (by decide) (by decide)⟩

/-- Counterexample to C4 as stated: the store lookup is `WHERE email = ?`,
exact string equality, so the casing variant "Ann@example.com" of the
stored "ann@example.com" is not found and login fails with the correct
password — while the exact stored casing succeeds with that same password. -/
theorem login_case_variant_fails :
    (Users.ServiceLogin annStore fixtureCfg 0 "Ann@example.com" "password123"
        = .error (.repo .recordNotFound))
    ∧ (Users.ServiceLogin annStore fixtureCfg 0 "ann@example.com" "password123"
        = .ok (Jwt.GenerateTokens 0 "u1" "user" "s" 900 604800)) := by
  constructor
  · decide
  · decide

/-- C4 (amended): the email lookup is exact (case-sensitive) string
equality: any identity `FindByEmail` returns has exactly the queried email
string, and login with an email whose lookup succeeds and whose password
verifies returns the token pair for that identity. -/
theorem login_exact_email_succeeds (store : Users.UserStore) (cfg : Users.Config)
    (now : Int) (email pass : String) :
    (∀ v : Users.User, Users.FindByEmail store email = .ok v → v.Email = email)
    ∧ (∀ u : Users.User, Users.FindByEmail store email = .ok u →
      Password.CheckPasswordHash pass u.PasswordHash = true →
      Users.ServiceLogin store cfg now email pass =
        .ok (Jwt.GenerateTokens now u.ID u.Role cfg.JWTSecret
              cfg.AccessTokenTTL cfg.RefreshTokenTTL)) := by
  constructor
  · intro v hv
    unfold Users.FindByEmail at hv
    split at hv
    · rename_i u hfind
      have := List.find?_some hfind
      cases hv
      exact eq_of_beq this
    · exact absurd hv (by simp)
  · intro u hu hpw
    simp [Users.ServiceLogin, hu, hpw]

/-- Witness for C4 (amended): the fixture identity logs in with its exact
stored email and correct password. -/
theorem login_exact_email_succeeds_witness :
    Users.ServiceLogin annStore fixtureCfg 0 "ann@example.com" "password123" =
      .ok (Jwt.GenerateTokens 0 annUser.ID annUser.Role fixtureCfg.JWTSecret
            fixtureCfg.AccessTokenTTL fixtureCfg.RefreshTokenTTL) :=
  (login_exact_email_succeeds annStore fixtureCfg 0 "ann@example.com" "password123").2
    annUser (by decide) (by decide)

/-- C5: the role gate passes a request to the next handler (unchanged) iff
a role is bound in the context and is among the permitted roles; a request
with no bound role is answered 403, every non-pass is a 403 response (no
crash); the user-listing gate is exactly `HasRoleMiddleware("admin")`, so
it passes iff the bound role is "admin" and answers 403 otherwise. -/
theorem role_gate_iff (requiredRoles : List String) (req : Middleware.Request) :
    (Middleware.HasRoleMiddleware requiredRoles req = .next req ↔
      ∃ r, req.ctxRole = some r ∧ r ∈ requiredRoles)
    ∧ (∀ x, Middleware.HasRoleMiddleware requiredRoles req = .next x → x = req)
    ∧ (req.ctxRole = none →
      Middleware.HasRoleMiddleware requiredRoles req =
        .respond Middleware.roleNotFoundResponse)
    ∧ (∀ e, Middleware.HasRoleMiddleware requiredRoles req = .respond e → e.status = 403)
    ∧ (Middleware.listUsersRoleGate req = .next req ↔ req.ctxRole = some "admin")
    ∧ (∀ e, Middleware.listUsersRoleGate req = .respond e → e.status = 403) := by
  unfold Middleware.listUsersRoleGate
  cases hrole : req.ctxRole with
  | none =>
    simp [Middleware.HasRoleMiddleware, hrole, Middleware.roleNotFoundResponse]
  | some r =>
    cases hc : requiredRoles.contains r with
    | true =>
      have hmem : r ∈ requiredRoles := List.elem_iff.mp hc
      by_cases hadm : r = "admin"
      · subst hadm
        simp [Middleware.HasRoleMiddleware, hrole, hc, hmem,
          Middleware.insufficientPermissionsResponse]
      · have hc2 : (["admin"] : List String).contains r = false := by
          simp [hadm]
        simp [Middleware.HasRoleMiddleware, hrole, hc, hc2, hmem, hadm,
          Middleware.insufficientPermissionsResponse]
    | false =>
      have hmem : r ∉ requiredRoles := by
        intro hm
        have h2 : requiredRoles.contains r = true := List.elem_iff.mpr hm
        exact absurd (hc.symm.trans h2) (by decide)
      by_cases hadm : r = "admin"
      · subst hadm
        simp [Middleware.HasRoleMiddleware, hrole, hc, hmem,
          Middleware.insufficientPermissionsResponse]
      · have hc2 : (["admin"] : List String).contains r = false := by
          simp [hadm]
        simp [Middleware.HasRoleMiddleware, hrole, hc, hc2, hmem, hadm,
          Middleware.insufficientPermissionsResponse]

/-- Witness for C5: a request with bound role "admin" passes the listing
gate; one with no bound role is answered 403. -/
theorem role_gate_iff_witness :
    (Middleware.listUsersRoleGate
      { authorizationHeader := "Bearer t", ctxUserID := some "u1", ctxRole := some "admin" } =
      .next { authorizationHeader := "Bearer t", ctxUserID := some "u1", ctxRole := some "admin" })
    ∧ (Middleware.HasRoleMiddleware ["admin"]
        { authorizationHeader := "Bearer t", ctxUserID := none, ctxRole := none } =
      .respond Middleware.roleNotFoundResponse) :=
  ⟨((role_gate_iff ["admin"]
      { authorizationHeader := "Bearer t", ctxUserID := some "u1", ctxRole := some "admin" }).2.2.2.2.1).2
      rfl,
   (role_gate_iff ["admin"]
      { authorizationHeader := "Bearer t", ctxUserID := none, ctxRole := none }).2.2.1 rfl⟩

/-- C6: on a missing Authorization header, or one that does not split on
the separating space into exactly a scheme segment case-insensitively equal
to "bearer" plus one token segment, the access-control middleware responds
401 and never reaches the next handler. -/
theorem auth_gate_unauthorized (validateTokenString : String → Except Jwt.TokenError Jwt.Claims)
    (req : Middleware.Request)
    (h : req.authorizationHeader = "" ∨
      ¬ ∃ scheme tok, splitStr ' ' req.authorizationHeader = [scheme, tok]
          ∧ toLowerStr scheme = "bearer") :
    ∃ e, Middleware.AuthMiddleware validateTokenString req = .respond e ∧ e.status = 401 := by
  by_cases hemp : req.authorizationHeader = ""
  · refine ⟨Middleware.authHeaderRequiredResponse, ?_, rfl⟩
    simp [Middleware.AuthMiddleware, hemp]
  · rcases h with h | h
    · exact absurd h hemp
    · refine ⟨Middleware.invalidAuthFormatResponse, ?_, rfl⟩
      have hd : (splitStr ' ' req.authorizationHeader).length ≠ 2
          ∨ toLowerStr ((splitStr ' ' req.authorizationHeader).headD "") ≠ "bearer" := by
        by_contra hc
        push_neg at hc
        obtain ⟨hlen, hlow⟩ := hc
        obtain ⟨a, b, hab⟩ := List.length_eq_two.mp hlen
        refine h ⟨a, b, hab, ?_⟩
        rw [hab] at hlow
        simpa using hlow
      unfold Middleware.AuthMiddleware
      rw [if_neg (by simp [hemp])]
      rw [if_pos (by simp only [Bool.or_eq_true, decide_eq_true_eq]; exact hd)]

/-- Witness for C6: a request with a "Basic"-scheme header is answered 401
by the middleware (under any token validator). -/
theorem auth_gate_unauthorized_witness :
    ∃ e, Middleware.AuthMiddleware (fun _ => .error .signatureInvalid)
      { authorizationHeader := "Basic Zm9v", ctxUserID := none, ctxRole := none } =
      .respond e ∧ e.status = 401 :=
  auth_gate_unauthorized (fun _ => .error .signatureInvalid)
    { authorizationHeader := "Basic Zm9v", ctxUserID := none, ctxRole := none }
    (Or.inr (by
      rintro ⟨scheme, tok, heq, hlow⟩
      rw [show splitStr ' ' "Basic Zm9v" = ["Basic", "Zm9v"] from by decide] at heq
      rcases List.cons_eq_cons.mp heq with ⟨rfl, h3⟩
      exact absurd hlow (by decide)))

/-- C8: a successful `Register` stores and returns an identity whose role
is "user", whose password hash is the hash of the submitted password, whose
name and email are the submitted ones, and whose caller-facing JSON
projection is independent of the password hash (the hash field is tagged
out of marshalling). -/
theorem register_defaults_and_hides_hash (store : Users.UserStore) (salt : Nat)
    (newID : UUID) (now : Int) (name email pass : String)
    (u : Users.User) (store2 : Users.UserStore)
    (h : Users.ServiceRegister store salt newID now name email pass = .ok (u, store2)) :
    u.Role = "user" ∧ u.PasswordHash = Password.HashPassword salt pass
    ∧ u.Name = name ∧ u.Email = email ∧ u ∈ store2
    ∧ (∀ hash2 : String, Users.User.toJson { u with PasswordHash := hash2 }
        = Users.User.toJson u) := by
  simp only [Users.ServiceRegister, Users.Create] at h
  split at h
  · exact absurd h (by simp)
  · rw [Except.ok.injEq, Prod.mk.injEq] at h
    obtain ⟨hu, hstore⟩ := h
    subst hu
    subst hstore
    refine ⟨rfl, rfl, rfl, rfl, ?_, fun _ => rfl⟩
    exact List.mem_append_right store (List.mem_singleton.mpr rfl)

/-- Witness for C8: registering the fixture identity against an empty
store. -/
theorem register_defaults_and_hides_hash_witness :
    annUser.Role = "user" ∧ annUser.PasswordHash = Password.HashPassword 7 "password123"
    ∧ annUser.Name = "Ann" ∧ annUser.Email = "ann@example.com" ∧ annUser ∈ [annUser]
    ∧ (∀ hash2 : String, Users.User.toJson { annUser with PasswordHash := hash2 }
        = Users.User.toJson annUser) :=
  register_defaults_and_hides_hash [] 7 "u1" 0 "Ann" "ann@example.com" "password123"
    annUser [annUser] (by decide)

/-- C10: the products `Service.Update` assigns exactly `Name`,
`Description`, `Price` and `Stock` on the record fetched for the given id
before storing it; `ID`, `OwnerID` and `CreatedAt` are carried over from
the fetched record, so an update never reassigns the owner. -/
theorem product_update_frame (store : Products.ProductStore) (id : UUID)
    (name description : String) (price : Float) (stock : Int)
    (p r : Products.Product) (store2 : Products.ProductStore)
    (hfind : Products.FindByID store id = some p)
    (h : Products.ServiceUpdate store id name description price stock = some (r, store2)) :
    r.ID = p.ID ∧ r.OwnerID = p.OwnerID ∧ r.CreatedAt = p.CreatedAt
    ∧ r.Name = name ∧ r.Description = description ∧ r.Price = price ∧ r.Stock = stock := by
  unfold Products.ServiceUpdate at h
  rw [hfind] at h
  rw [Option.some.injEq, Prod.mk.injEq] at h
  obtain ⟨hr, _⟩ := h
  subst hr
  exact ⟨rfl, rfl, rfl, rfl, rfl, rfl, rfl⟩

/-- A concrete product fixture for the C10 witness. -/
def fixtureProduct : Products.Product :=
  { ID := "p1"
    Name := "Widget"
    Description := "old"
    Price := 10.0
    Stock := 3
    OwnerID := "u1"
    CreatedAt := 5
    UpdatedAt := 5 }

/-- The fixture product after the C10 update. -/
def fixtureProductUpdated : Products.Product :=
  { ID := "p1"
    Name := "Gadget"
    Description := "new"
    Price := 12.5
    Stock := 7
    OwnerID := "u1"
    CreatedAt := 5
    UpdatedAt := 5 }

/-- Witness for C10: updating the fixture product changes the four updatable
fields and leaves id, owner and creation time as fetched. -/
theorem product_update_frame_witness :
    fixtureProductUpdated.ID = fixtureProduct.ID
    ∧ fixtureProductUpdated.OwnerID = fixtureProduct.OwnerID
    ∧ fixtureProductUpdated.CreatedAt = fixtureProduct.CreatedAt
    ∧ fixtureProductUpdated.Name = "Gadget" ∧ fixtureProductUpdated.Description = "new"
    ∧ fixtureProductUpdated.Price = 12.5 ∧ fixtureProductUpdated.Stock = 7 :=
  product_update_frame [fixtureProduct] "p1" "Gadget" "new" 12.5 7
    fixtureProduct fixtureProductUpdated [fixtureProductUpdated] rfl rfl

/-- C2: for every token whose header declares a signing algorithm outside
the HMAC family, `ValidateToken` returns an error (never claims),
regardless of the token's contents or signature, the verification time, or
the secret supplied. -/
theorem validateToken_rejects_non_hmac (now : Int) (t : Jwt.Token) (secret : String)
    (h : t.method.isHMAC = false) :
    Jwt.ValidateToken now t secret = .error .unexpectedSigningMethod := by
  unfold Jwt.ValidateToken
  simp [h]

/-- Witness for C2: a concrete RS256 token is rejected even with a
"correct" signature and a live validity window. -/
theorem validateToken_rejects_non_hmac_witness :
    (let c : Jwt.Claims :=
      { UserID := "u1", Role := "admin",
        Registered := { ExpiresAt := 100, IssuedAt := 0, NotBefore := 0, Subject := "u1" } }
     let t : Jwt.Token :=
      { method := .RS256, claims := c, sig := Jwt.hmacSign .RS256 "s" (Jwt.serializeClaims c) }
     Jwt.ValidateToken 50 t "s" = .error .unexpectedSigningMethod) :=
  validateToken_rejects_non_hmac 50 _ "s" rfl

/-- C3: verifying a token issued by `generateToken` with the same secret,
at a time in its validity window (at or after issuance, before expiry, the
ttl positive), succeeds and yields claims whose subject and user id equal
the issued subject and whose role equals the issued role. -/
theorem validateToken_roundtrip (now t ttl : Int) (uid : UUID) (role secret : String)
    (_h0 : 0 < ttl) (h1 : now ≤ t) (h2 : t < now + ttl) :
    ∃ c : Jwt.Claims,
      Jwt.ValidateToken t (Jwt.generateToken now uid role secret ttl) secret = .ok c
      ∧ c.Registered.Subject = uid ∧ c.UserID = uid ∧ c.Role = role := by
  refine ⟨(Jwt.generateToken now uid role secret ttl).claims, ?_, rfl, rfl, rfl⟩
  unfold Jwt.ValidateToken Jwt.generateToken
  have hnbf : ¬ t < now := by omega
  have hexp : ¬ now + ttl ≤ t := by omega
  simp [Jwt.SigningMethod.isHMAC, hnbf, hexp]

/-- Witness for C3: issuance at time 0 with ttl 60, verification at time 30. -/
theorem validateToken_roundtrip_witness :
    ∃ c : Jwt.Claims,
      Jwt.ValidateToken 30 (Jwt.generateToken 0 "u1" "user" "s" 60) "s" = .ok c
      ∧ c.Registered.Subject = "u1" ∧ c.UserID = "u1" ∧ c.Role = "user" :=
  validateToken_roundtrip 0 30 60 "u1" "user" "s" (by decide) (by decide) (by decide)

/-- C7: `ValidateToken` accepts only inside the token's validity window:
acceptance implies `not_before ≤ now ≤ expires_at`, and at any time after
`expires_at` validation fails even with the correct secret. -/
theorem validateToken_time_window (now : Int) (t : Jwt.Token) (secret : String) :
    (∀ c : Jwt.Claims, Jwt.ValidateToken now t secret = .ok c →
        t.claims.Registered.NotBefore ≤ now ∧ now ≤ t.claims.Registered.ExpiresAt)
    ∧ (t.claims.Registered.ExpiresAt < now →
        ∀ c : Jwt.Claims, Jwt.ValidateToken now t secret ≠ .ok c) := by
  unfold Jwt.ValidateToken
  constructor
  · intro c hc
    split at hc
    · exact absurd hc (by simp)
    · split at hc
      · exact absurd hc (by simp)
      · split at hc
        · exact absurd hc (by simp)
        · split at hc
          · exact absurd hc (by simp)
          · omega
  · intro hlate c
    split
    · simp
    · split
      · simp
      · split
        · simp
        · split
          · simp
          · omega

/-- Witness for C7: a token that expired at time 100 is rejected at time
101 with its own correct secret. -/
theorem validateToken_time_window_witness :
    ∀ c : Jwt.Claims,
      Jwt.ValidateToken 101 (Jwt.generateToken 0 "u1" "user" "s" 100) "s" ≠ .ok c :=
  (validateToken_time_window 101 (Jwt.generateToken 0 "u1" "user" "s" 100) "s").2 (by decide)

/-- C9: the refresh token of `GenerateTokens` is signed with the same
secret and carries no kind discriminator: plain `ValidateToken` with that
secret accepts it (inside its window) and yields exactly the subject and
role that the access token carries. -/
theorem refresh_token_verifies_as_access (now t accessTTL refreshTTL : Int)
    (uid : UUID) (role secret : String)
    (h1 : now ≤ t) (h2 : t < now + refreshTTL) :
    ∃ c : Jwt.Claims,
      Jwt.ValidateToken t
        (Jwt.GenerateTokens now uid role secret accessTTL refreshTTL).2 secret = .ok c
      ∧ c.UserID = uid ∧ c.Role = role
      ∧ c.UserID = (Jwt.GenerateTokens now uid role secret accessTTL refreshTTL).1.claims.UserID
      ∧ c.Role = (Jwt.GenerateTokens now uid role secret accessTTL refreshTTL).1.claims.Role := by
  refine ⟨(Jwt.generateToken now uid role secret refreshTTL).claims, ?_, rfl, rfl, rfl, rfl⟩
  unfold Jwt.GenerateTokens Jwt.ValidateToken Jwt.generateToken
  have hnbf : ¬ t < now := by omega
  have hexp : ¬ now + refreshTTL ≤ t := by omega
  simp [Jwt.SigningMethod.isHMAC, hnbf, hexp]

/-- Witness for C9: refresh token issued at time 0 with a 7-day ttl is
accepted at time 1000 (after the 900-second access ttl) with the same
secret and the access token's subject and role. -/
theorem refresh_token_verifies_as_access_witness :
    ∃ c : Jwt.Claims,
      Jwt.ValidateToken 1000
        (Jwt.GenerateTokens 0 "u1" "user" "s" 900 604800).2 "s" = .ok c
      ∧ c.UserID = "u1" ∧ c.Role = "user"
      ∧ c.UserID = (Jwt.GenerateTokens 0 "u1" "user" "s" 900 604800).1.claims.UserID
      ∧ c.Role = (Jwt.GenerateTokens 0 "u1" "user" "s" 900 604800).1.claims.Role :=
  refresh_token_verifies_as_access 0 1000 900 604800 "u1" "user" "s" (by decide) (by decide)

end GoCrudApi
